import Mathlib

/-!
Verification of the action-item management core of the meeting-assistant
backend: the status-transition policy (`ActionItemStatus.is_valid_transition`),
the management service (get / update / status-update / soft delete / batch
status update) and the request-validation schemas, shallowly embedded from
`app/models/action_item.py`, `app/services/action_item_service.py`,
`app/schemas/action_item.py` and `app/api/v1/endpoints/action_items.py`.

Timestamps are modelled as natural numbers; every service call receives the
ambient `datetime.utcnow()` value as an explicit `now` argument (all `utcnow`
calls inside one service call are identified, matching the one-transaction-
per-call model of the spec).  The database session is a list of records; a
service operation returns its result together with the resulting database,
the database being returned unchanged on a domain error.
-/

namespace MeetingAssistant

/-- The four statuses of `ActionItemStatus` in `app/models/action_item.py`. -/
inductive ActionItemStatus where
  | todo
  | in_progress
  | done
  | cancelled
deriving DecidableEq, Repr, Fintype

/-- The `.value` string of each `ActionItemStatus` member. -/
def ActionItemStatus.value : ActionItemStatus → String
  | .todo => "todo"
  | .in_progress => "in_progress"
  | .done => "done"
  | .cancelled => "cancelled"

/-- `ActionItemStatus.is_valid_transition` from `app/models/action_item.py`:
the identity transition is accepted, everything else is accepted unless it is
one of the three pairs in the `invalid_transitions` set. -/
def ActionItemStatus.is_valid_transition
    (from_status to_status : ActionItemStatus) : Bool :=
  if from_status = to_status then
    true
  else
    ¬ ((from_status = .done ∧ to_status = .cancelled) ∨
       (from_status = .cancelled ∧ to_status = .in_progress) ∨
       (from_status = .cancelled ∧ to_status = .done))

/-- The three priorities of `ActionItemPriority` in `app/models/action_item.py`. -/
inductive ActionItemPriority where
  | high
  | medium
  | low
deriving DecidableEq, Repr

/-- The `ActionItem` record of `app/models/action_item.py` (column defaults are
applied at creation sites).  Timestamps are naturals, `due_date`, `deleted_at`
and `status_changed_at` are nullable. -/
structure ActionItem where
  id : Nat
  meeting_id : Nat
  title : String
  description : Option String
  owner : Option String
  due_date : Option Nat
  status : ActionItemStatus
  priority : ActionItemPriority
  notes : Option String
  is_deleted : Bool
  deleted_at : Option Nat
  status_changed_at : Option Nat
  created_at : Nat
  updated_at : Nat
deriving DecidableEq, Repr

/-- The database session: the stored `action_items` rows. -/
abbrev Db := List ActionItem

/-- The domain errors raised by `ActionItemManagementService`
(`app/services/action_item_service.py`). -/
inductive SvcError where
  | actionItemNotFound
  | invalidStatusTransition
  | meetingNotFound
deriving DecidableEq, Repr

/-- The `ActionItemUpdate` schema of `app/schemas/action_item.py` after
`model_dump(exclude_unset=True)`: the outer `Option` records whether a field
was explicitly provided in the request; for nullable columns the inner
`Option` is the provided value. -/
structure ActionItemUpdate where
  title : Option String := none
  description : Option (Option String) := none
  owner : Option (Option String) := none
  due_date : Option (Option Nat) := none
  status : Option ActionItemStatus := none
  priority : Option ActionItemPriority := none
  notes : Option (Option String) := none
deriving DecidableEq, Repr

/-- The `SELECT ... WHERE id == action_item_id AND is_deleted == False` of
`get_action_item`: first matching non-deleted row, `none` if absent. -/
def fetchActionItem (db : Db) (action_item_id : Nat) : Option ActionItem :=
  db.find? (fun r => r.id == action_item_id && !r.is_deleted)

/-- `ActionItemManagementService.get_action_item`: fetch excluding
soft-deleted rows, raising `ActionItemNotFoundError` on a miss. -/
def get_action_item (db : Db) (action_item_id : Nat) :
    Except SvcError ActionItem :=
  match fetchActionItem db action_item_id with
  | some item => .ok item
  | none => .error .actionItemNotFound

/-- Writing the mutated ORM object back into the session: the row with the
item's primary key is replaced. -/
def setActionItem (db : Db) (item : ActionItem) : Db :=
  db.map (fun r => if r.id == item.id then item else r)

/-- The `setattr` loop of `update_action_item`: write every explicitly
provided field of the mask onto the record. -/
def applyMaskFields (item : ActionItem) (u : ActionItemUpdate) : ActionItem :=
  { item with
    title := u.title.getD item.title
    description := u.description.getD item.description
    owner := u.owner.getD item.owner
    due_date := u.due_date.getD item.due_date
    status := u.status.getD item.status
    priority := u.priority.getD item.priority
    notes := u.notes.getD item.notes }

/-- `ActionItemManagementService.update_action_item`: fetch-or-`NotFound`;
when the mask provides `status`, validate the transition against the stored
status and add `status_changed_at = now` to the update dict; apply all
provided fields; refresh `updated_at`.  On a domain error the session is
returned unchanged. -/
def update_action_item (db : Db) (action_item_id : Nat)
    (update_data : ActionItemUpdate) (now : Nat) :
    Except SvcError ActionItem × Db :=
  match fetchActionItem db action_item_id with
  | none => (.error .actionItemNotFound, db)
  | some item =>
    match update_data.status with
    | some new_status =>
      if ActionItemStatus.is_valid_transition item.status new_status then
        let item' := { applyMaskFields item update_data with
                       status_changed_at := some now
                       updated_at := now }
        (.ok item', setActionItem db item')
      else
        (.error .invalidStatusTransition, db)
    | none =>
      let item' := { applyMaskFields item update_data with updated_at := now }
      (.ok item', setActionItem db item')

/-- `ActionItemManagementService.update_status`: fetch-or-`NotFound`,
validate the transition, then set `status`, `status_changed_at` and
`updated_at`. -/
def update_status (db : Db) (action_item_id : Nat)
    (new_status : ActionItemStatus) (now : Nat) :
    Except SvcError ActionItem × Db :=
  match fetchActionItem db action_item_id with
  | none => (.error .actionItemNotFound, db)
  | some item =>
    if ActionItemStatus.is_valid_transition item.status new_status then
      let item' := { item with
                     status := new_status
                     status_changed_at := some now
                     updated_at := now }
      (.ok item', setActionItem db item')
    else
      (.error .invalidStatusTransition, db)

/-- `ActionItemManagementService.delete_action_item`: fetch-or-`NotFound`,
then soft delete by setting `is_deleted`, `deleted_at` and `updated_at`. -/
def delete_action_item (db : Db) (action_item_id : Nat) (now : Nat) :
    Except SvcError Unit × Db :=
  match fetchActionItem db action_item_id with
  | none => (.error .actionItemNotFound, db)
  | some item =>
    let item' := { item with
                   is_deleted := true
                   deleted_at := some now
                   updated_at := now }
    (.ok (), setActionItem db item')

/-- The row predicate of the single bulk `UPDATE` statement in
`batch_update_status`: `id IN ids AND is_deleted == False`. -/
def batchHits (ids : List Nat) (r : ActionItem) : Bool :=
  ids.contains r.id && !r.is_deleted

/-- `ActionItemManagementService.batch_update_status`: one `UPDATE` statement
setting `status`, `status_changed_at` and `updated_at` on every non-deleted
row whose id is in `ids`; returns the rowcount.  No per-item transition
validation is performed and no domain error can be raised. -/
def batch_update_status (db : Db) (ids : List Nat)
    (new_status : ActionItemStatus) (now : Nat) : Nat × Db :=
  let db' := db.map (fun r =>
    if batchHits ids r then
      { r with status := new_status
               status_changed_at := some now
               updated_at := now }
    else r)
  (db.countP (fun r => batchHits ids r), db')

/-- The `ActionItemCreate` request of `app/schemas/action_item.py` as sent by
the client: `priority` is `none` when the request omits it (the schema field
carries the default `ActionItemPriority.MEDIUM`). -/
structure ActionItemCreate where
  meeting_id : Nat
  title : String
  description : Option String := none
  owner : Option String := none
  due_date : Option Nat := none
  priority : Option ActionItemPriority := none
deriving DecidableEq, Repr

/-- The `create_action_item` endpoint of
`app/api/v1/endpoints/action_items.py`: reject with a 404 when the meeting id
does not exist (before any write); otherwise insert a fresh row with
`status = "todo"`, the schema-defaulted priority, and the model column
defaults (`is_deleted = False`, null `deleted_at` / `status_changed_at` /
`notes`, `created_at = updated_at = now`). -/
def create_action_item (meetings : List Nat) (db : Db)
    (action_item : ActionItemCreate) (new_id now : Nat) :
    Except SvcError ActionItem × Db :=
  if meetings.contains action_item.meeting_id then
    let db_item : ActionItem :=
      { id := new_id
        meeting_id := action_item.meeting_id
        title := action_item.title
        description := action_item.description
        owner := action_item.owner
        due_date := action_item.due_date
        status := .todo
        priority := (action_item.priority.getD .medium)
        notes := none
        is_deleted := false
        deleted_at := none
        status_changed_at := none
        created_at := now
        updated_at := now }
    (.ok db_item, db ++ [db_item])
  else
    (.error .meetingNotFound, db)

/-- The `ids` validation of the `BatchStatusUpdate` schema
(`app/schemas/action_item.py`): `min_length=1`, `max_length=100`, and the
`validate_ids_unique` validator rejecting when `len(v) != len(set(v))`. -/
def batchIdsValid (ids : List Nat) : Bool :=
  1 ≤ ids.length && ids.length ≤ 100 && ids.dedup.length == ids.length

/-- The `BatchResponse` schema of `app/schemas/action_item.py`. -/
structure BatchResponse where
  updated_count : Nat
  ids : List Nat
  message : String
deriving DecidableEq, Repr

/-- The `/batch/status` endpoint of `app/api/v1/endpoints/action_items.py`:
request validation happens at the schema boundary before the service runs;
an accepted request calls `batch_update_status` and echoes the requested ids
alongside the affected count. -/
def batch_update_status_endpoint (db : Db) (ids : List Nat)
    (new_status : ActionItemStatus) (now : Nat) :
    Except String BatchResponse × Db :=
  if batchIdsValid ids then
    let result := batch_update_status db ids new_status now
    (.ok { updated_count := result.1
           ids := ids
           message := "Updated " ++ toString result.1 ++
             " action items to status " ++ new_status.value },
     result.2)
  else
    (.error "Invalid batch request", db)

/-- Sample stored record: non-deleted, currently `cancelled`. -/
def exCancelled : ActionItem :=
  { id := 1, meeting_id := 1, title := "a", description := none, owner := none
    due_date := none, status := .cancelled, priority := .medium, notes := none
    is_deleted := false, deleted_at := none, status_changed_at := none
    created_at := 0, updated_at := 0 }

/-- Sample stored record: non-deleted, currently `todo`. -/
def exTodo : ActionItem :=
  { exCancelled with id := 3, status := .todo }

/-- Sample stored record: soft-deleted. -/
def exDeleted : ActionItem :=
  { exCancelled with id := 2, is_deleted := true, deleted_at := some 5 }

/-- Sample session holding the three sample records. -/
def exDb : Db := [exCancelled, exDeleted, exTodo]

/-- The §3 invariant on one record: `deleted_at` is non-null exactly when
`is_deleted` is set. -/
def deletedFlagConsistent (r : ActionItem) : Prop :=
  r.deleted_at.isSome = r.is_deleted

/-- The §3 invariant over a whole session. -/
def dbConsistent (db : Db) : Prop :=
  ∀ r ∈ db, deletedFlagConsistent r

/-- A successful fetch returns a stored, non-deleted record with the
requested id. -/
theorem fetchActionItem_eq_some {db : Db} {action_item_id : Nat}
    {item : ActionItem} (h : fetchActionItem db action_item_id = some item) :
    item ∈ db ∧ item.id = action_item_id ∧ item.is_deleted = false := by
  have hmem := List.mem_of_find?_eq_some h
  have hp := List.find?_some h
  simp only [Bool.and_eq_true, beq_iff_eq, Bool.not_eq_true'] at hp
  exact ⟨hmem, hp.1, hp.2⟩

/-- After a record with the fetched id is written back in deleted state, a
fetch of that id misses: the write replaces every row carrying the id and the
replacement fails the `is_deleted == False` filter. -/
theorem fetchActionItem_setActionItem_deleted (db : Db) {action_item_id : Nat}
    {item' : ActionItem} (hid : item'.id = action_item_id)
    (hdel : item'.is_deleted = true) :
    fetchActionItem (setActionItem db item') action_item_id = none := by
  induction db with
  | nil => rfl
  | cons r t ih =>
    have hstep :
        setActionItem (r :: t) item' =
          (if r.id == item'.id then item' else r) :: setActionItem t item' :=
      rfl
    rw [fetchActionItem, hstep, List.find?_cons_of_neg]
    · exact ih
    · by_cases h : r.id = item'.id
      · simp [h, hid, hdel]
      · have hne : r.id ≠ action_item_id := fun he => h (he.trans hid.symm)
        simp [h, hne]

/-- Membership in a written-back session comes from membership in the
original session. -/
theorem mem_setActionItem {db : Db} {item' r' : ActionItem}
    (h : r' ∈ setActionItem db item') : r' = item' ∨ r' ∈ db := by
  rcases List.mem_map.mp h with ⟨r, hr, heq⟩
  by_cases hid : r.id == item'.id
  · left
    rw [← heq]
    simp [hid]
  · right
    rw [← heq]
    simpa [hid] using hr

end MeetingAssistant

namespace MeetingAssistant

/-- Claim C1: `is_valid_transition` returns true exactly off the three
forbidden pairs; in particular identity transitions, every pair whose source
is `todo` or `in_progress`, `done → in_progress` and `cancelled → todo` are
all accepted. -/
theorem is_valid_transition_characterization :
    (∀ f t : ActionItemStatus,
      ActionItemStatus.is_valid_transition f t = true ↔
        ¬ ((f = .done ∧ t = .cancelled) ∨
           (f = .cancelled ∧ t = .in_progress) ∨
           (f = .cancelled ∧ t = .done))) ∧
    (∀ s : ActionItemStatus, ActionItemStatus.is_valid_transition s s = true) ∧
    (∀ t : ActionItemStatus,
      ActionItemStatus.is_valid_transition .todo t = true ∧
      ActionItemStatus.is_valid_transition .in_progress t = true) ∧
    ActionItemStatus.is_valid_transition .done .in_progress = true ∧
    ActionItemStatus.is_valid_transition .cancelled .todo = true := by
  refine ⟨?_, ?_, ?_, by decide, by decide⟩ <;> decide

/-- Claim C2: on a stored, non-deleted record, an update whose mask carries a
status failing the transition check raises `InvalidStatusTransitionError` and
leaves the session — hence the record, all its fields and both timestamps —
completely unchanged. -/
theorem update_action_item_invalid_transition_rejects_whole_update
    (db : Db) (action_item_id now : Nat) (u : ActionItemUpdate)
    (item : ActionItem) (s : ActionItemStatus)
    (hfetch : fetchActionItem db action_item_id = some item)
    (hs : u.status = some s)
    (hinvalid : ActionItemStatus.is_valid_transition item.status s = false) :
    update_action_item db action_item_id u now =
      (.error .invalidStatusTransition, db) := by
  simp [update_action_item, hfetch, hs, hinvalid]

/-- Witness for C2: trying to move the sample `cancelled` record to `done`
while also masking a new title is rejected wholesale. -/
theorem update_action_item_invalid_transition_rejects_whole_update_witness :
    update_action_item exDb 1
        { title := some "x", status := some .done } 9 =
      (.error .invalidStatusTransition, exDb) :=
  update_action_item_invalid_transition_rejects_whole_update exDb 1 9
    { title := some "x", status := some .done } exCancelled .done
    (by decide) rfl (by decide)

/-- Claim C6: the status-only service call coincides with the generic update
applied to the mask that provides exactly the status field: same errors on a
missing id or a rejected transition, and the same resulting record and
session, with identical `status_changed_at` / `updated_at` stamping. -/
theorem update_status_eq_update_action_item_status_mask
    (db : Db) (action_item_id : Nat) (new_status : ActionItemStatus)
    (now : Nat) :
    update_status db action_item_id new_status now =
      update_action_item db action_item_id { status := some new_status } now := by
  unfold update_status update_action_item
  cases hfetch : fetchActionItem db action_item_id with
  | none => rfl
  | some item => rfl

/-- Claim C10: on a stored, non-deleted record, re-asserting the current
status (the identity transition) succeeds on both update paths and still
stamps `status_changed_at` and `updated_at` with the current time. -/
theorem identity_transition_succeeds_and_restamps
    (db : Db) (action_item_id now : Nat) (item : ActionItem)
    (hfetch : fetchActionItem db action_item_id = some item) :
    update_status db action_item_id item.status now =
      (.ok { item with status_changed_at := some now, updated_at := now },
       setActionItem db
         { item with status_changed_at := some now, updated_at := now }) ∧
    update_action_item db action_item_id { status := some item.status } now =
      (.ok { item with status_changed_at := some now, updated_at := now },
       setActionItem db
         { item with status_changed_at := some now, updated_at := now }) := by
  have hvalid : ActionItemStatus.is_valid_transition item.status item.status
      = true := by
    unfold ActionItemStatus.is_valid_transition
    simp
  constructor
  · simp [update_status, hfetch, hvalid]
  · simp [update_action_item, applyMaskFields, hfetch, hvalid]

/-- Claim C3: the batch path performs no per-item transition validation and
cannot raise a transition error (its result type is a plain count): every
stored non-deleted record whose id is listed is force-set to the new status
with both timestamps stamped — with no hypothesis on the legality of the
transition — records with unlisted ids or a set deleted flag are untouched,
and the returned count is the number of records actually changed. -/
theorem batch_update_status_skips_validation_and_counts
    (db : Db) (ids : List Nat) (new_status : ActionItemStatus) (now : Nat) :
    ((batch_update_status db ids new_status now).2).length = db.length ∧
    (∀ i : Nat, ∀ r : ActionItem, db[i]? = some r →
      (ids.contains r.id = true → r.is_deleted = false →
        ((batch_update_status db ids new_status now).2)[i]? =
          some { r with status := new_status
                        status_changed_at := some now
                        updated_at := now }) ∧
      (ids.contains r.id = false ∨ r.is_deleted = true →
        ((batch_update_status db ids new_status now).2)[i]? = some r)) ∧
    (batch_update_status db ids new_status now).1 =
      (db.filter (fun r => ids.contains r.id && !r.is_deleted)).length := by
  refine ⟨by simp [batch_update_status], ?_,
    by simp [batch_update_status, batchHits, List.countP_eq_length_filter]⟩
  intro i r hr
  constructor
  · intro hin hdel
    have hin' : r.id ∈ ids := by simpa using hin
    have hhit : batchHits ids r = true := by simp [batchHits, hin', hdel]
    simp [batch_update_status, List.getElem?_map, hr, hhit]
  · intro hneg
    have hhit : batchHits ids r = false := by
      rcases hneg with h | h
      · have h' : r.id ∉ ids := by simpa using h
        simp [batchHits, h']
      · simp [batchHits, h]
    simp [batch_update_status, List.getElem?_map, hr, hhit]

/-- Witness for C3 on the spec scenario `[1, 2, 999]` with id 2 soft-deleted
and id 999 absent: the count is 1, the `cancelled` record id 1 is force-set
to `done` (a transition the single-item path rejects) and the deleted record
id 2 is untouched. -/
theorem batch_update_status_skips_validation_and_counts_witness :
    (batch_update_status exDb [1, 2, 999] .done 7).1 =
      (exDb.filter (fun r => [1, 2, 999].contains r.id && !r.is_deleted)).length ∧
    (exDb.filter
      (fun r => [1, 2, 999].contains r.id && !r.is_deleted)).length = 1 ∧
    ActionItemStatus.is_valid_transition .cancelled .done = false ∧
    ((batch_update_status exDb [1, 2, 999] .done 7).2)[0]? =
      some { exCancelled with status := .done
                              status_changed_at := some 7
                              updated_at := 7 } ∧
    ((batch_update_status exDb [1, 2, 999] .done 7).2)[1]? = some exDeleted :=
  ⟨(batch_update_status_skips_validation_and_counts exDb [1, 2, 999]
      .done 7).2.2,
   by decide, by decide,
   ((batch_update_status_skips_validation_and_counts exDb [1, 2, 999]
      .done 7).2.1 0 exCancelled rfl).1 (by decide) (by decide),
   ((batch_update_status_skips_validation_and_counts exDb [1, 2, 999]
      .done 7).2.1 1 exDeleted rfl).2 (Or.inr (by decide))⟩

/-- Claim C4: an update whose mask omits `status` changes exactly the masked
fields plus `updated_at`; `status_changed_at`, `status` and every unmasked
field keep their stored values. -/
theorem update_action_item_without_status_frame
    (db : Db) (action_item_id now : Nat) (u : ActionItemUpdate)
    (item : ActionItem)
    (hfetch : fetchActionItem db action_item_id = some item)
    (hs : u.status = none) :
    ∃ item',
      update_action_item db action_item_id u now =
        (.ok item', setActionItem db item') ∧
      item'.status_changed_at = item.status_changed_at ∧
      item'.status = item.status ∧
      item'.updated_at = now ∧
      item'.id = item.id ∧
      item'.meeting_id = item.meeting_id ∧
      item'.created_at = item.created_at ∧
      item'.is_deleted = item.is_deleted ∧
      item'.deleted_at = item.deleted_at ∧
      (u.title = none → item'.title = item.title) ∧
      (∀ v, u.title = some v → item'.title = v) ∧
      (u.description = none → item'.description = item.description) ∧
      (∀ v, u.description = some v → item'.description = v) ∧
      (u.owner = none → item'.owner = item.owner) ∧
      (∀ v, u.owner = some v → item'.owner = v) ∧
      (u.due_date = none → item'.due_date = item.due_date) ∧
      (∀ v, u.due_date = some v → item'.due_date = v) ∧
      (u.priority = none → item'.priority = item.priority) ∧
      (∀ v, u.priority = some v → item'.priority = v) ∧
      (u.notes = none → item'.notes = item.notes) ∧
      (∀ v, u.notes = some v → item'.notes = v) := by
  refine ⟨{ applyMaskFields item u with updated_at := now },
    by simp [update_action_item, hfetch, hs],
    by simp [applyMaskFields], by simp [applyMaskFields, hs], rfl, rfl, rfl,
    rfl, rfl, rfl,
    fun h => by simp [applyMaskFields, h],
    fun v hv => by simp [applyMaskFields, hv],
    fun h => by simp [applyMaskFields, h],
    fun v hv => by simp [applyMaskFields, hv],
    fun h => by simp [applyMaskFields, h],
    fun v hv => by simp [applyMaskFields, hv],
    fun h => by simp [applyMaskFields, h],
    fun v hv => by simp [applyMaskFields, hv],
    fun h => by simp [applyMaskFields, h],
    fun v hv => by simp [applyMaskFields, hv],
    fun h => by simp [applyMaskFields, h],
    fun v hv => by simp [applyMaskFields, hv]⟩

/-- Witness for C4: masking only a new owner on the sample `todo` record. -/
theorem update_action_item_without_status_frame_witness :
    fetchActionItem exDb 3 = some exTodo ∧
    (∃ item',
      update_action_item exDb 3 { owner := some (some "bob") } 9 =
        (.ok item', setActionItem exDb item') ∧
      item'.status_changed_at = exTodo.status_changed_at ∧
      item'.status = exTodo.status ∧
      item'.updated_at = 9 ∧
      item'.id = exTodo.id ∧
      item'.meeting_id = exTodo.meeting_id ∧
      item'.created_at = exTodo.created_at ∧
      item'.is_deleted = exTodo.is_deleted ∧
      item'.deleted_at = exTodo.deleted_at ∧
      (({ owner := some (some "bob") } : ActionItemUpdate).title = none →
        item'.title = exTodo.title) ∧
      (∀ v, ({ owner := some (some "bob") } : ActionItemUpdate).title = some v →
        item'.title = v) ∧
      (({ owner := some (some "bob") } : ActionItemUpdate).description = none →
        item'.description = exTodo.description) ∧
      (∀ v,
        ({ owner := some (some "bob") } : ActionItemUpdate).description = some v →
        item'.description = v) ∧
      (({ owner := some (some "bob") } : ActionItemUpdate).owner = none →
        item'.owner = exTodo.owner) ∧
      (∀ v, ({ owner := some (some "bob") } : ActionItemUpdate).owner = some v →
        item'.owner = v) ∧
      (({ owner := some (some "bob") } : ActionItemUpdate).due_date = none →
        item'.due_date = exTodo.due_date) ∧
      (∀ v, ({ owner := some (some "bob") } : ActionItemUpdate).due_date = some v →
        item'.due_date = v) ∧
      (({ owner := some (some "bob") } : ActionItemUpdate).priority = none →
        item'.priority = exTodo.priority) ∧
      (∀ v, ({ owner := some (some "bob") } : ActionItemUpdate).priority = some v →
        item'.priority = v) ∧
      (({ owner := some (some "bob") } : ActionItemUpdate).notes = none →
        item'.notes = exTodo.notes) ∧
      (∀ v, ({ owner := some (some "bob") } : ActionItemUpdate).notes = some v →
        item'.notes = v)) :=
  ⟨by decide,
   update_action_item_without_status_frame exDb 3 9
     { owner := some (some "bob") } exTodo (by decide) rfl⟩

/-- Claim C7: a create against an absent meeting id is rejected before any
write; a successful create yields a record starting in `todo`, not deleted,
with no `status_changed_at`, and with the priority defaulting to `medium`
when the request supplies none. -/
theorem create_action_item_initial_state
    (meetings : List Nat) (db : Db) (c : ActionItemCreate) (new_id now : Nat) :
    (meetings.contains c.meeting_id = false →
      create_action_item meetings db c new_id now =
        (.error .meetingNotFound, db)) ∧
    (meetings.contains c.meeting_id = true →
      ∃ item,
        create_action_item meetings db c new_id now =
          (.ok item, db ++ [item]) ∧
        item.status = .todo ∧
        item.is_deleted = false ∧
        item.status_changed_at = none ∧
        item.deleted_at = none ∧
        item.created_at = now ∧
        item.updated_at = now ∧
        (c.priority = none → item.priority = .medium) ∧
        (∀ p, c.priority = some p → item.priority = p)) := by
  constructor
  · intro h
    have h' : c.meeting_id ∉ meetings := by simpa using h
    simp [create_action_item, h']
  · intro h
    unfold create_action_item
    rw [if_pos h]
    exact ⟨_, rfl, rfl, rfl, rfl, rfl, rfl, rfl,
      fun hp => by simp [hp], fun p hp => by simp [hp]⟩

/-- Witness for C7: meeting 2 is unknown so creation under it is rejected;
creation under the known meeting 1 with the priority field omitted starts in
`todo` with priority `medium`. -/
theorem create_action_item_initial_state_witness :
    create_action_item [1] exDb { meeting_id := 2, title := "t" } 10 9 =
      (.error .meetingNotFound, exDb) ∧
    (∃ item,
      create_action_item [1] exDb { meeting_id := 1, title := "t" } 10 9 =
        (.ok item, exDb ++ [item]) ∧
      item.status = .todo ∧
      item.is_deleted = false ∧
      item.status_changed_at = none ∧
      item.deleted_at = none ∧
      item.created_at = 9 ∧
      item.updated_at = 9 ∧
      (({ meeting_id := 1, title := "t" } : ActionItemCreate).priority = none →
        item.priority = .medium) ∧
      (∀ p,
        ({ meeting_id := 1, title := "t" } : ActionItemCreate).priority = some p →
        item.priority = p)) :=
  ⟨(create_action_item_initial_state [1] exDb
      { meeting_id := 2, title := "t" } 10 9).1 (by decide),
   (create_action_item_initial_state [1] exDb
      { meeting_id := 1, title := "t" } 10 9).2 (by decide)⟩

/-- Writing back a record that satisfies the deleted-flag invariant keeps the
whole session consistent. -/
theorem dbConsistent_setActionItem {db : Db} {item' : ActionItem}
    (hdb : dbConsistent db) (h : deletedFlagConsistent item') :
    dbConsistent (setActionItem db item') := by
  intro r hr
  rcases mem_setActionItem hr with rfl | hmem
  · exact h
  · exact hdb r hmem

/-- The session after `update_action_item` is either untouched or the
write-back of a record whose `is_deleted` / `deleted_at` are those of a
stored record. -/
theorem update_action_item_db_shape (db : Db) (action_item_id : Nat)
    (u : ActionItemUpdate) (now : Nat) :
    (update_action_item db action_item_id u now).2 = db ∨
    ∃ item item', fetchActionItem db action_item_id = some item ∧
      (update_action_item db action_item_id u now).2 = setActionItem db item' ∧
      item'.is_deleted = item.is_deleted ∧
      item'.deleted_at = item.deleted_at := by
  unfold update_action_item
  cases hfetch : fetchActionItem db action_item_id with
  | none => exact Or.inl rfl
  | some item =>
    cases hs : u.status with
    | none =>
      exact Or.inr ⟨item, _, rfl, rfl, rfl, rfl⟩
    | some s =>
      by_cases hv : ActionItemStatus.is_valid_transition item.status s = true
      · simp only [hv, if_true]
        exact Or.inr ⟨item, _, rfl, rfl, rfl, rfl⟩
      · simp only [hv, if_false]
        exact Or.inl rfl

/-- The session after `update_status` is either untouched or the write-back
of a record whose `is_deleted` / `deleted_at` are those of a stored record. -/
theorem update_status_db_shape (db : Db) (action_item_id : Nat)
    (new_status : ActionItemStatus) (now : Nat) :
    (update_status db action_item_id new_status now).2 = db ∨
    ∃ item item', fetchActionItem db action_item_id = some item ∧
      (update_status db action_item_id new_status now).2 =
        setActionItem db item' ∧
      item'.is_deleted = item.is_deleted ∧
      item'.deleted_at = item.deleted_at := by
  unfold update_status
  cases hfetch : fetchActionItem db action_item_id with
  | none => exact Or.inl rfl
  | some item =>
    by_cases hv : ActionItemStatus.is_valid_transition item.status
        new_status = true
    · simp only [hv, if_true]
      exact Or.inr ⟨item, _, rfl, rfl, rfl, rfl⟩
    · simp only [hv, if_false]
      exact Or.inl rfl

/-- Claim C8: the invariant `deleted_at is non-null iff is_deleted` holds for
every successfully created record and is preserved by create, partial update
(whose mask, by the schema, carries neither `is_deleted` nor `deleted_at`),
status update, soft delete and batch status update. -/
theorem deleted_flag_invariant_preserved :
    (∀ meetings db c new_id now item,
      (create_action_item meetings db c new_id now).1 = .ok item →
      deletedFlagConsistent item) ∧
    (∀ meetings db c new_id now, dbConsistent db →
      dbConsistent (create_action_item meetings db c new_id now).2) ∧
    (∀ db action_item_id u now, dbConsistent db →
      dbConsistent (update_action_item db action_item_id u now).2) ∧
    (∀ db action_item_id new_status now, dbConsistent db →
      dbConsistent (update_status db action_item_id new_status now).2) ∧
    (∀ db action_item_id now, dbConsistent db →
      dbConsistent (delete_action_item db action_item_id now).2) ∧
    (∀ db ids new_status now, dbConsistent db →
      dbConsistent (batch_update_status db ids new_status now).2) := by
  refine ⟨?_, ?_, ?_, ?_, ?_, ?_⟩
  · intro meetings db c new_id now item hok
    by_cases h : c.meeting_id ∈ meetings
    · simp [create_action_item, h] at hok
      rw [← hok]
      rfl
    · simp [create_action_item, h] at hok
  · intro meetings db c new_id now hdb
    by_cases h : c.meeting_id ∈ meetings
    · simp only [create_action_item]
      rw [if_pos (by simpa using h)]
      intro r hr
      rcases List.mem_append.mp hr with hmem | hmem
      · exact hdb r hmem
      · rcases List.mem_singleton.mp hmem with rfl
        rfl
    · simp only [create_action_item]
      rw [if_neg (by simpa using h)]
      exact hdb
  · intro db action_item_id u now hdb
    rcases update_action_item_db_shape db action_item_id u now with
      heq | ⟨item, item', hfetch, heq, h1, h2⟩
    · rw [heq]
      exact hdb
    · rw [heq]
      refine dbConsistent_setActionItem hdb ?_
      have := hdb item (fetchActionItem_eq_some hfetch).1
      unfold deletedFlagConsistent at this ⊢
      rw [h1, h2]
      exact this
  · intro db action_item_id new_status now hdb
    rcases update_status_db_shape db action_item_id new_status now with
      heq | ⟨item, item', hfetch, heq, h1, h2⟩
    · rw [heq]
      exact hdb
    · rw [heq]
      refine dbConsistent_setActionItem hdb ?_
      have := hdb item (fetchActionItem_eq_some hfetch).1
      unfold deletedFlagConsistent at this ⊢
      rw [h1, h2]
      exact this
  · intro db action_item_id now hdb
    unfold delete_action_item
    cases hfetch : fetchActionItem db action_item_id with
    | none => exact hdb
    | some item =>
      exact dbConsistent_setActionItem hdb rfl
  · intro db ids new_status now hdb
    intro r hr
    rcases List.mem_map.mp hr with ⟨r0, hr0, heq⟩
    rw [← heq]
    by_cases h : batchHits ids r0
    · simpa [h, deletedFlagConsistent] using hdb r0 hr0
    · simpa [h, deletedFlagConsistent] using hdb r0 hr0

/-- The sample session satisfies the deleted-flag invariant. -/
theorem exDb_consistent : dbConsistent exDb := by
  intro r hr
  simp only [exDb, List.mem_cons, List.mem_singleton, List.not_mem_nil,
    or_false] at hr
  rcases hr with rfl | rfl | rfl <;> rfl

/-- Witness for C8: the sample session is consistent and stays so after a
partial update, a status update, a soft delete and an unvalidated batch
update; the record created under meeting 1 is consistent as well. -/
theorem deleted_flag_invariant_preserved_witness :
    dbConsistent exDb ∧
    dbConsistent (update_action_item exDb 3 { title := some "x" } 9).2 ∧
    dbConsistent (update_status exDb 3 .done 9).2 ∧
    dbConsistent (delete_action_item exDb 3 9).2 ∧
    dbConsistent (batch_update_status exDb [1, 2, 999] .done 7).2 ∧
    deletedFlagConsistent
      { id := 10, meeting_id := 1, title := "t", description := none,
        owner := none, due_date := none, status := .todo, priority := .medium,
        notes := none, is_deleted := false, deleted_at := none,
        status_changed_at := none, created_at := 9, updated_at := 9 } :=
  ⟨exDb_consistent,
   deleted_flag_invariant_preserved.2.2.1 exDb 3 { title := some "x" } 9
     exDb_consistent,
   deleted_flag_invariant_preserved.2.2.2.1 exDb 3 .done 9 exDb_consistent,
   deleted_flag_invariant_preserved.2.2.2.2.1 exDb 3 9 exDb_consistent,
   deleted_flag_invariant_preserved.2.2.2.2.2 exDb [1, 2, 999] .done 7
     exDb_consistent,
   deleted_flag_invariant_preserved.1 [1] exDb { meeting_id := 1, title := "t" }
     10 9 _ rfl⟩

/-- `len(set(v)) == len(v)` holds exactly when the list has no duplicate. -/
theorem dedup_length_eq_iff_nodup (ids : List Nat) :
    ids.dedup.length = ids.length ↔ ids.Nodup := by
  constructor
  · intro h
    exact List.dedup_eq_self.mp ((List.dedup_sublist ids).eq_of_length h)
  · intro h
    rw [List.dedup_eq_self.mpr h]

/-- The `BatchStatusUpdate` validator accepts exactly the nonempty,
duplicate-free id lists of at most 100 entries. -/
theorem batchIdsValid_iff (ids : List Nat) :
    batchIdsValid ids = true ↔
      1 ≤ ids.length ∧ ids.length ≤ 100 ∧ ids.Nodup := by
  unfold batchIdsValid
  simp only [Bool.and_eq_true, decide_eq_true_eq, beq_iff_eq]
  constructor
  · rintro ⟨⟨h1, h2⟩, h3⟩
    exact ⟨h1, h2, (dedup_length_eq_iff_nodup ids).mp h3⟩
  · rintro ⟨h1, h2, h3⟩
    exact ⟨⟨h1, h2⟩, (dedup_length_eq_iff_nodup ids).mpr h3⟩

/-- Claim C9: a batch request whose id list is empty, longer than 100 or
carries a duplicate is rejected at the schema boundary with the session
untouched; an accepted request reaches the service and answers the affected
count together with an echo of the requested ids. -/
theorem batch_endpoint_validation_boundary
    (db : Db) (ids : List Nat) (new_status : ActionItemStatus) (now : Nat) :
    (¬ (1 ≤ ids.length ∧ ids.length ≤ 100 ∧ ids.Nodup) →
      batch_update_status_endpoint db ids new_status now =
        (.error "Invalid batch request", db)) ∧
    ((1 ≤ ids.length ∧ ids.length ≤ 100 ∧ ids.Nodup) →
      ∃ resp : BatchResponse,
        batch_update_status_endpoint db ids new_status now =
          (.ok resp, (batch_update_status db ids new_status now).2) ∧
        resp.updated_count = (batch_update_status db ids new_status now).1 ∧
        resp.ids = ids) := by
  constructor
  · intro h
    have hv : batchIdsValid ids = false := by
      cases hb : batchIdsValid ids
      · rfl
      · exact absurd ((batchIdsValid_iff ids).mp hb) h
    simp [batch_update_status_endpoint, hv]
  · intro h
    have hv : batchIdsValid ids = true := (batchIdsValid_iff ids).mpr h
    unfold batch_update_status_endpoint
    rw [if_pos hv]
    exact ⟨_, rfl, rfl, rfl⟩

/-- Witness for C9: the duplicate list `[1, 1]` is rejected with the sample
session untouched, while `[1, 2, 999]` is accepted and echoed. -/
theorem batch_endpoint_validation_boundary_witness :
    batch_update_status_endpoint exDb [1, 1] .done 7 =
      (.error "Invalid batch request", exDb) ∧
    (∃ resp : BatchResponse,
      batch_update_status_endpoint exDb [1, 2, 999] .done 7 =
        (.ok resp, (batch_update_status exDb [1, 2, 999] .done 7).2) ∧
      resp.updated_count = (batch_update_status exDb [1, 2, 999] .done 7).1 ∧
      resp.ids = [1, 2, 999]) :=
  ⟨(batch_endpoint_validation_boundary exDb [1, 1] .done 7).1 (by decide),
   (batch_endpoint_validation_boundary exDb [1, 2, 999] .done 7).2 (by decide)⟩

/-- Claim C5: soft delete on a stored, non-deleted record succeeds, stamps
`is_deleted` / `deleted_at` / `updated_at`, and afterwards both a get and a
second delete of the same id raise `ActionItemNotFoundError`, while the
soft-deleted record itself is still stored. -/
theorem delete_action_item_soft_delete_then_not_found
    (db : Db) (action_item_id now now2 : Nat) (item : ActionItem)
    (hfetch : fetchActionItem db action_item_id = some item) :
    (delete_action_item db action_item_id now).1 = .ok () ∧
    (∃ r, r ∈ (delete_action_item db action_item_id now).2 ∧
       r.id = action_item_id ∧ r.is_deleted = true ∧
       r.deleted_at = some now ∧ r.updated_at = now) ∧
    get_action_item (delete_action_item db action_item_id now).2
      action_item_id = .error .actionItemNotFound ∧
    delete_action_item (delete_action_item db action_item_id now).2
      action_item_id now2 =
      (.error .actionItemNotFound,
       (delete_action_item db action_item_id now).2) := by
  obtain ⟨hmem, hid, -⟩ := fetchActionItem_eq_some hfetch
  have hD : delete_action_item db action_item_id now =
      (.ok (), setActionItem db
        { item with is_deleted := true, deleted_at := some now, updated_at := now }) := by
    simp [delete_action_item, hfetch]
  have hnone : fetchActionItem
      (setActionItem db
        { item with is_deleted := true, deleted_at := some now, updated_at := now })
      action_item_id = none :=
    fetchActionItem_setActionItem_deleted db hid rfl
  refine ⟨by rw [hD], ?_, ?_, ?_⟩
  · refine ⟨{ item with is_deleted := true, deleted_at := some now, updated_at := now },
      ?_, hid, rfl, rfl, rfl⟩
    rw [hD]
    have := List.mem_map_of_mem
      (fun r => if r.id ==
        ({ item with is_deleted := true, deleted_at := some now, updated_at := now } :
          ActionItem).id
        then { item with is_deleted := true, deleted_at := some now, updated_at := now }
        else r) hmem
    simpa [setActionItem] using this
  · rw [hD]
    simp [get_action_item, hnone]
  · rw [hD]
    simp [delete_action_item, hnone]

/-- Witness for C5: deleting the sample `todo` record hides it from get and a
repeat delete while keeping the marked row stored. -/
theorem delete_action_item_soft_delete_then_not_found_witness :
    (delete_action_item exDb 3 9).1 = .ok () ∧
    (∃ r, r ∈ (delete_action_item exDb 3 9).2 ∧
       r.id = 3 ∧ r.is_deleted = true ∧
       r.deleted_at = some 9 ∧ r.updated_at = 9) ∧
    get_action_item (delete_action_item exDb 3 9).2 3 =
      .error .actionItemNotFound ∧
    delete_action_item (delete_action_item exDb 3 9).2 3 11 =
      (.error .actionItemNotFound, (delete_action_item exDb 3 9).2) :=
  delete_action_item_soft_delete_then_not_found exDb 3 9 11 exTodo (by decide)

/-- Witness for C10: re-asserting `cancelled` on the sample `cancelled`
record succeeds and refreshes both timestamps. -/
theorem identity_transition_succeeds_and_restamps_witness :
    update_status exDb 1 ActionItemStatus.cancelled 9 =
      (.ok { exCancelled with status_changed_at := some 9, updated_at := 9 },
       setActionItem exDb
         { exCancelled with status_changed_at := some 9, updated_at := 9 }) ∧
    update_action_item exDb 1
        { status := some ActionItemStatus.cancelled } 9 =
      (.ok { exCancelled with status_changed_at := some 9, updated_at := 9 },
       setActionItem exDb
         { exCancelled with status_changed_at := some 9, updated_at := 9 }) :=
  identity_transition_succeeds_and_restamps exDb 1 9 exCancelled (by decide)

end MeetingAssistant
